import Mathlib

/-!
Verification development for the TDMS2HDF5 repository.

The repository is a PyQt GUI around a Channel Registry: channels are loaded
from a TDMS (proprietary binary) container or an HDF5 (hierarchical)
container, indexed by a composite "group/name" key, queried for derived time
tracks, and exported back to the hierarchical container format.

The presenter layer (src/unnamed/part_003) is embedded directly from the
source; the Channel/Registry core (`ChannelModel`) and the static axis-label
table (`view.AXESLABELS`) are not among the provided source files, so those
operations are modelled from the specification, as marked in each doc
comment.

Numeric samples and attribute values are modelled as rationals: equality of
rationals is exact, so "bit-identical or floating-point-tolerant-equal"
collapses to plain equality.
-/

namespace TDMS2HDF5

/-- Modelled from the spec: the group classification of a channel
(`ChannelModel` is missing from the sources). RAW holds originally acquired
data, PROCESSED holds derived data. -/
inductive ChannelGroup
  | RAW
  | PROCESSED
deriving DecidableEq

/-- Modelled from the spec: the on-disk directory name of each group
("raw" and "proc" top-level grouping nodes). -/
def groupDirName : ChannelGroup → String
  | .RAW => "raw"
  | .PROCESSED => "proc"

/-- Modelled from the spec: a Channel is one named data series plus its
attribute map and group membership (`ChannelModel.Channel` is missing from
the sources). -/
structure Channel where
  name : String
  group : ChannelGroup
  data : List ℚ
  attrs : List (String × ℚ)
deriving DecidableEq

/-- Modelled from the spec: the composite registry key `group/name`. -/
def Channel.key (ch : Channel) : String :=
  groupDirName ch.group ++ "/" ++ ch.name

/-- Modelled from the spec: look an attribute up by its string key. -/
def Channel.lookupAttr (ch : Channel) (k : String) : Option ℚ :=
  (ch.attrs.find? (fun p => p.1 = k)).map Prod.snd

/-- Modelled from the spec: the error taxonomy of §7 (the non-fatal
`UnclassifiedChannelWarning` is reported out of band, not raised). -/
inductive RegError
  | FormatError
  | MissingAttributeError
  | EmptySelectionError
deriving DecidableEq

/-- Modelled from the spec: `Channel.getTimeTrack()` synthesizes a time axis
of the same length as `data` via `t[i] = t0 + i * dt` from the channel's
sampling-interval attribute `dt` (with start `t0`, defaulting to 0), and
fails with `MissingAttributeError` when no sampling-interval attribute is
present. -/
def Channel.getTimeTrack (ch : Channel) : Except RegError (List ℚ) :=
  match ch.lookupAttr "dt" with
  | none => .error .MissingAttributeError
  | some dt =>
    let t0 : ℚ := (ch.lookupAttr "t0").getD 0
    .ok ((List.range ch.data.length).map (fun i : ℕ => t0 + (i : ℚ) * dt))

/-- Modelled from the spec: one leaf object of the proprietary binary (TDMS)
container: a path of segments, a name, eagerly read samples, and metadata. -/
structure TdmsObject where
  path : List String
  name : String
  data : List ℚ
  attrs : List (String × ℚ)
deriving DecidableEq

/-- Modelled from the spec: group classification by the path-segment
convention — a "raw" segment means RAW, a "proc" segment means PROCESSED,
anything else is unclassified (`none`). -/
def classifyObject (obj : TdmsObject) : Option ChannelGroup :=
  if "raw" ∈ obj.path then some .RAW
  else if "proc" ∈ obj.path then some .PROCESSED
  else none

/-- Modelled from the spec: build the Channel for a classified object. -/
def objectToChannel (obj : TdmsObject) (g : ChannelGroup) : Channel :=
  ⟨obj.name, g, obj.data, obj.attrs⟩

/-- Modelled from the spec: the binary-container reader's channel collection:
each classified leaf object becomes one Channel, in on-disk declaration
order; unclassified objects are excluded. -/
def readTdmsChannels (objs : List TdmsObject) : List Channel :=
  objs.filterMap (fun o => (classifyObject o).map (objectToChannel o))

/-- Modelled from the spec: the `UnclassifiedChannelWarning` reports, one per
object matching neither group convention. -/
def unclassifiedWarnings (objs : List TdmsObject) : List String :=
  (objs.filter (fun o => (classifyObject o).isNone)).map TdmsObject.name

/-- Modelled from the spec: a container file as the adapter sees it — either
structurally malformed (the adapter raises `FormatError`) or a parsed list
of leaf objects. -/
inductive ContainerFile
  | malformed
  | tdms (objs : List TdmsObject)
deriving DecidableEq

/-- Modelled from the spec: the format-adapter parse step, failing with
`FormatError` on a malformed container. -/
def parseContainer : ContainerFile → Except RegError (List TdmsObject)
  | .malformed => .error .FormatError
  | .tdms objs => .ok objs

/-- Modelled from the spec: the Channel Registry — an ordered mapping from
composite key `group/name` to Channel, insertion order preserved. -/
structure ChannelRegistry where
  mapping : List (String × Channel)
deriving DecidableEq

/-- Modelled from the spec: `Registry.keys()` in insertion order. -/
def ChannelRegistry.keys (reg : ChannelRegistry) : List String :=
  reg.mapping.map Prod.fst

/-- Modelled from the spec: `Registry.items()` in insertion order. -/
def ChannelRegistry.items (reg : ChannelRegistry) : List (String × Channel) :=
  reg.mapping

/-- Modelled from the spec: index a channel collection by composite key. -/
def keyedChannels (chans : List Channel) : List (String × Channel) :=
  chans.map (fun c => (c.key, c))

/-- Modelled from the spec: `Registry.loadFromFile` — invoke the adapter; on
success replace the internal mapping wholesale and report the warnings; on
adapter failure keep the previous state and propagate the error. -/
def ChannelRegistry.loadFromFile (reg : ChannelRegistry) (f : ContainerFile) :
    ChannelRegistry × Except RegError (List String) :=
  match parseContainer f with
  | .error e => (reg, .error e)
  | .ok objs =>
    (⟨keyedChannels (readTdmsChannels objs)⟩, .ok (unclassifiedWarnings objs))

/-- Modelled from the spec: one named dataset of the hierarchical (HDF5)
container, carrying its samples and dataset-level attribute metadata. -/
structure HDataset where
  name : String
  data : List ℚ
  attrs : List (String × ℚ)
deriving DecidableEq

/-- Modelled from the spec: a hierarchical container file with the two
top-level grouping nodes "raw" and "proc", each a list of named datasets in
declaration order. -/
structure HFile where
  rawGroup : List HDataset
  procGroup : List HDataset
deriving DecidableEq

/-- Modelled from the spec: the writer serializes one Channel as a dataset
under its group: its `data` as the dataset, its attribute map as
dataset-level metadata. -/
def channelToDataset (ch : Channel) : HDataset :=
  ⟨ch.name, ch.data, ch.attrs⟩

/-- Modelled from the spec: the reader reconstructs one Channel from a
dataset, the group taken from the grouping node that holds the dataset. -/
def datasetToChannel (g : ChannelGroup) (d : HDataset) : Channel :=
  ⟨d.name, g, d.data, d.attrs⟩

/-- Modelled from the spec: the hierarchical-container writer — create the
two top-level groups and write each Channel's dataset under its group. -/
def writeHDF5 (chans : List Channel) : HFile :=
  ⟨(chans.filter (fun c => c.group = .RAW)).map channelToDataset,
   (chans.filter (fun c => c.group = .PROCESSED)).map channelToDataset⟩

/-- Modelled from the spec: the hierarchical-container reader — enumerate
the datasets of the "raw" node then of the "proc" node, reconstructing group
membership from the grouping node. -/
def readHDF5 (f : HFile) : List Channel :=
  f.rawGroup.map (datasetToChannel .RAW) ++ f.procGroup.map (datasetToChannel .PROCESSED)

/-- Modelled from the spec: the subset of channels an export acts on — the
full registry contents, or the channels whose keys are in the caller's
selection. -/
def ChannelRegistry.selectChannels (reg : ChannelRegistry)
    (sel : Option (List String)) : List Channel :=
  match sel with
  | none => reg.mapping.map Prod.snd
  | some ks => (reg.mapping.filter (fun kv => kv.1 ∈ ks)).map Prod.snd

/-- Modelled from the spec: `Registry.exportToFile` — invoke the writer on
the selected subset, failing with `EmptySelectionError` when that subset is
empty. -/
def ChannelRegistry.exportToFile (reg : ChannelRegistry)
    (sel : Option (List String)) : Except RegError HFile :=
  let chans := reg.selectChannels sel
  if chans.isEmpty then .error .EmptySelectionError
  else .ok (writeHDF5 chans)

/-- Modelled from the spec: the file system as a mapping from path to
written hierarchical container, to express that a failed export creates and
modifies nothing. -/
abbrev FileSys : Type := List (String × HFile)

/-- Modelled from the spec: writing a container file at a path. -/
def fsWrite (fs : FileSys) (path : String) (f : HFile) : FileSys :=
  (path, f) :: fs

/-- Modelled from the spec: `exportToFile` with the file-system effect made
explicit: on success the file is written at `path`; on failure the error is
raised and the file system is untouched. -/
def ChannelRegistry.exportToFileFS (reg : ChannelRegistry) (path : String)
    (sel : Option (List String)) (fs : FileSys) :
    FileSys × Except RegError Unit :=
  match reg.exportToFile sel with
  | .error e => (fs, .error e)
  | .ok file => (fsWrite fs path file, .ok ())

/-! ## The axis-label lookup, embedded from the source

`Presenter.generateAxisLabel` (src/unnamed/part_003, lines 242-257):

    def generateAxisLabel(self, chan_name):
        chan_name = chan_name.split('/')[-1]
        for axlbl in AXESLABELS.keys():
            for cn in AXESLABELS[axlbl]:
                if chan_name == cn:
                    label = axlbl
        return label

The table `AXESLABELS` (defined in the missing `view` module) is taken as a
parameter: an association list from axis label to the channel names listed
under it, in the dictionary's iteration order. The local variable `label`
is modelled as an `Option String` accumulator: `none` is the unassigned
state, in which the final `return label` raises `UnboundLocalError`. -/

/-- The label table: axis labels paired with the channel names listed under
them, in iteration order. -/
abbrev AxesLabels : Type := List (String × List String)

/-- Splitting a character list on a separator, with Python `str.split(sep)`
semantics: the result is never empty, and consecutive separators produce
empty segments. -/
def splitOnChar (sep : Char) : List Char → List (List Char)
  | [] => [[]]
  | c :: rest =>
    match splitOnChar sep rest with
    | [] => [[c]]
    | s :: ss => if c = sep then [] :: s :: ss else (c :: s) :: ss

/-- The short name `chan_name.split('/')[-1]`: the last '/'-separated path
segment (the split is never empty, so the default is unused). -/
def shortName (chanName : String) : String :=
  String.mk ((splitOnChar '/' chanName.data).getLastD [])

/-- `Presenter.generateAxisLabel`, embedded from the source: the nested
loops over the table, assigning `label` on every match; `none` means the
variable was never assigned and the `return` raises. -/
def generateAxisLabel (axesLabels : AxesLabels) (chanName : String) :
    Option String :=
  let cn := shortName chanName
  axesLabels.foldl
    (fun acc axlbl =>
      axlbl.2.foldl (fun acc2 c => if cn = c then some axlbl.1 else acc2) acc)
    none

/-- The label of the last entry, in table iteration order, whose name list
contains `cn` — the reference description of last-write-wins. -/
def findLastMatch (cn : String) : AxesLabels → Option String
  | [] => none
  | p :: rest =>
    match findLastMatch cn rest with
    | some lbl => some lbl
    | none => if cn ∈ p.2 then some p.1 else none

/-! ## Concrete fixtures used by the witnesses -/

/-- The empty registry. -/
def emptyRegistry : ChannelRegistry := ⟨[]⟩

/-- A three-sample RAW channel with a sampling-interval attribute. -/
def exampleChannel : Channel := ⟨"x1", .RAW, [0, 0, 0], [("dt", 1/100)]⟩

/-- A channel with attributes but no sampling-interval-equivalent one. -/
def channelNoDt : Channel := ⟨"y1", .PROCESSED, [0, 0], [("offset", 5)]⟩

/-- A one-channel registry. -/
def exampleRegistry : ChannelRegistry := ⟨[("raw/x1", exampleChannel)]⟩

/-- The spec's example source objects: `raw/x1` with `dt = 0.01` and 100
samples, then `proc/y1` with `dt = 0.02` and 50 samples. -/
def exampleObjs : List TdmsObject :=
  [⟨["raw"], "x1", List.replicate 100 0, [("dt", 1/100)]⟩,
   ⟨["proc"], "y1", List.replicate 50 0, [("dt", 1/50)]⟩]

/-- The spec's example container file. -/
def exampleFile : ContainerFile := .tdms exampleObjs

/-- A source file with one `raw` object, one `proc` object, and one object
matching neither group convention. -/
def mixedObjs : List TdmsObject :=
  [⟨["raw"], "x1", [0], [("dt", 1/100)]⟩,
   ⟨["proc"], "y1", [0], []⟩,
   ⟨["misc"], "z1", [0], []⟩]

/-! ## Helper lemmas -/

theorem datasetToChannel_channelToDataset (c : Channel) (g : ChannelGroup)
    (h : c.group = g) : datasetToChannel g (channelToDataset c) = c := by
  cases c
  subst h
  rfl

theorem readHDF5_writeHDF5_eq (cs : List Channel) :
    readHDF5 (writeHDF5 cs)
      = cs.filter (fun c => c.group = .RAW)
          ++ cs.filter (fun c => c.group = .PROCESSED) := by
  unfold readHDF5 writeHDF5
  simp only [List.map_map]
  congr 1
  · rw [List.map_congr_left (g := id), List.map_id]
    intro c hc
    have hg := List.of_mem_filter hc
    simp only [decide_eq_true_eq] at hg
    exact datasetToChannel_channelToDataset c _ hg
  · rw [List.map_congr_left (g := id), List.map_id]
    intro c hc
    have hg := List.of_mem_filter hc
    simp only [decide_eq_true_eq] at hg
    exact datasetToChannel_channelToDataset c _ hg

theorem filter_proc_eq_filter_not_raw (cs : List Channel) :
    cs.filter (fun c => c.group = .PROCESSED)
      = cs.filter (fun c => !(decide (c.group = .RAW))) := by
  apply List.filter_congr
  intro c _
  cases hg : c.group <;> simp [hg]

theorem keyedChannels_keys (chans : List Channel) :
    (keyedChannels chans).map Prod.fst = chans.map Channel.key := by
  unfold keyedChannels
  rw [List.map_map]
  rfl

/-! ## The claims -/

/-- C1: writing a Channel collection with the hierarchical-container writer
and reading the file back with the hierarchical-container reader yields a
collection equal to the original in keys, groups, attribute sets and data:
the read-back channel list is a permutation of the original in which every
channel is reproduced identically (group, attribute map, bit-identical
data), and the key list is the corresponding permutation of the original
key list. -/
theorem hdf5_roundtrip_law (cs : List Channel) :
    (readHDF5 (writeHDF5 cs)).Perm cs ∧
    ((readHDF5 (writeHDF5 cs)).map Channel.key).Perm (cs.map Channel.key) := by
  have hperm : (readHDF5 (writeHDF5 cs)).Perm cs := by
    rw [readHDF5_writeHDF5_eq, filter_proc_eq_filter_not_raw]
    exact List.filter_append_perm _ cs
  exact ⟨hperm, hperm.map _⟩

/-- C2: when the format adapter fails on a container, `loadFromFile` leaves
the registry exactly as it was and propagates the adapter's error to the
caller. -/
theorem loadFromFile_adapter_error (reg : ChannelRegistry) (f : ContainerFile)
    (e : RegError) (h : parseContainer f = .error e) :
    reg.loadFromFile f = (reg, .error e) := by
  unfold ChannelRegistry.loadFromFile
  rw [h]

/-- Witness for C2 at a concrete registry and a malformed container. -/
theorem loadFromFile_adapter_error_witness :
    parseContainer .malformed = .error .FormatError ∧
    exampleRegistry.loadFromFile .malformed
      = (exampleRegistry, .error .FormatError) :=
  ⟨rfl, loadFromFile_adapter_error exampleRegistry .malformed .FormatError rfl⟩

/-- C3: for a channel whose attributes define the sampling interval `dt`
(start `t0`, defaulting to 0) and whose data has length `n`,
`getTimeTrack()` returns a sequence of length exactly `n` with
`t[i] = t0 + i * dt`, hence `t[i+1] - t[i] = dt` for every valid `i`
(exact equality of rationals, subsuming floating-point tolerance). -/
theorem getTimeTrack_of_dt (ch : Channel) (dt : ℚ)
    (h : ch.lookupAttr "dt" = some dt) :
    ∃ ts : List ℚ,
      ch.getTimeTrack = .ok ts ∧
      ts.length = ch.data.length ∧
      (∀ i, ∀ hi : i < ts.length,
        ts.get ⟨i, hi⟩ = (ch.lookupAttr "t0").getD 0 + (i : ℚ) * dt) ∧
      (∀ i, ∀ hi1 : i + 1 < ts.length, ∀ hi2 : i < ts.length,
        ts.get ⟨i + 1, hi1⟩ - ts.get ⟨i, hi2⟩ = dt) := by
  refine ⟨(List.range ch.data.length).map
      (fun i : ℕ => (ch.lookupAttr "t0").getD 0 + (i : ℚ) * dt),
    ?_, ?_, ?_, ?_⟩
  · unfold Channel.getTimeTrack
    rw [h]
  · simp
  · intro i hi
    simp [List.get_eq_getElem]
  · intro i hi1 hi2
    simp only [List.get_eq_getElem, List.getElem_map, List.getElem_range]
    push_cast
    ring

/-- Witness for C3 at a concrete three-sample channel with `dt = 1/100`. -/
theorem getTimeTrack_of_dt_witness :
    exampleChannel.lookupAttr "dt" = some (1/100) ∧
    ∃ ts : List ℚ,
      exampleChannel.getTimeTrack = .ok ts ∧
      ts.length = exampleChannel.data.length ∧
      (∀ i, ∀ hi : i < ts.length,
        ts.get ⟨i, hi⟩ = (exampleChannel.lookupAttr "t0").getD 0
          + (i : ℚ) * (1/100)) ∧
      (∀ i, ∀ hi1 : i + 1 < ts.length, ∀ hi2 : i < ts.length,
        ts.get ⟨i + 1, hi1⟩ - ts.get ⟨i, hi2⟩ = 1/100) :=
  ⟨rfl, getTimeTrack_of_dt exampleChannel (1/100) rfl⟩

/-- C4: a channel with no sampling-interval-equivalent attribute fails with
`MissingAttributeError` from `getTimeTrack()`; there is no fallback to a
default time axis. -/
theorem getTimeTrack_missing_dt (ch : Channel)
    (h : ch.lookupAttr "dt" = none) :
    ch.getTimeTrack = .error .MissingAttributeError := by
  unfold Channel.getTimeTrack
  rw [h]

/-- Witness for C4 at a concrete channel without a `dt` attribute. -/
theorem getTimeTrack_missing_dt_witness :
    channelNoDt.lookupAttr "dt" = none ∧
    channelNoDt.getTimeTrack = .error .MissingAttributeError :=
  ⟨rfl, getTimeTrack_missing_dt channelNoDt rfl⟩

/-- C5: after a successful load whose classified channels carry distinct
composite keys, `Registry.keys()` has no duplicates and its cardinality is
the number of successfully classified source objects; objects matching
neither group convention are reported as warnings and excluded while the
load still succeeds. -/
theorem load_keys_nodup_card (reg : ChannelRegistry) (f : ContainerFile)
    (objs : List TdmsObject) (hok : parseContainer f = .ok objs)
    (hkeys : ((readTdmsChannels objs).map Channel.key).Nodup) :
    (reg.loadFromFile f).1.keys.Nodup ∧
    (reg.loadFromFile f).1.keys.length
      = objs.countP (fun o => (classifyObject o).isSome) ∧
    (reg.loadFromFile f).2 = .ok (unclassifiedWarnings objs) := by
  unfold ChannelRegistry.loadFromFile
  rw [hok]
  refine ⟨?_, ?_, rfl⟩
  · show ((keyedChannels (readTdmsChannels objs)).map Prod.fst).Nodup
    rw [keyedChannels_keys]
    exact hkeys
  · show ((keyedChannels (readTdmsChannels objs)).map Prod.fst).length = _
    rw [keyedChannels_keys, List.length_map]
    unfold readTdmsChannels
    rw [List.length_filterMap_eq_countP]
    apply List.countP_congr
    intro o _
    cases classifyObject o <;> rfl

/-- Witness for C5 at a source file with one raw, one proc and one
unclassified object: two distinct keys, count 2, and the unclassified
object is reported. -/
theorem load_keys_nodup_card_witness :
    parseContainer (.tdms mixedObjs) = .ok mixedObjs ∧
    ((readTdmsChannels mixedObjs).map Channel.key).Nodup ∧
    (emptyRegistry.loadFromFile (.tdms mixedObjs)).1.keys.Nodup ∧
    (emptyRegistry.loadFromFile (.tdms mixedObjs)).1.keys.length
      = mixedObjs.countP (fun o => (classifyObject o).isSome) ∧
    (emptyRegistry.loadFromFile (.tdms mixedObjs)).2
      = .ok (unclassifiedWarnings mixedObjs) :=
  ⟨rfl, by decide,
   (load_keys_nodup_card emptyRegistry (.tdms mixedObjs) mixedObjs rfl
     (by decide)).1,
   (load_keys_nodup_card emptyRegistry (.tdms mixedObjs) mixedObjs rfl
     (by decide)).2.1,
   (load_keys_nodup_card emptyRegistry (.tdms mixedObjs) mixedObjs rfl
     (by decide)).2.2⟩

/-- C6: every successful `loadFromFile` fully replaces the internal mapping
with the newly parsed channels — the result mapping is exactly the keyed
parse of the new file and is the same whatever the previous registry state
was, so no channel of the previous generation remains. -/
theorem load_replaces_mapping (reg regPrev : ChannelRegistry)
    (f : ContainerFile) (objs : List TdmsObject)
    (hok : parseContainer f = .ok objs) :
    (reg.loadFromFile f).1.mapping = keyedChannels (readTdmsChannels objs) ∧
    (reg.loadFromFile f).1 = (regPrev.loadFromFile f).1 := by
  unfold ChannelRegistry.loadFromFile
  rw [hok]
  exact ⟨rfl, rfl⟩

/-- Witness for C6: reloading over a non-empty registry yields the same
state as loading into the empty registry. -/
theorem load_replaces_mapping_witness :
    parseContainer exampleFile = .ok exampleObjs ∧
    (exampleRegistry.loadFromFile exampleFile).1.mapping
      = keyedChannels (readTdmsChannels exampleObjs) ∧
    (exampleRegistry.loadFromFile exampleFile).1
      = (emptyRegistry.loadFromFile exampleFile).1 :=
  ⟨rfl, (load_replaces_mapping exampleRegistry emptyRegistry exampleFile
          exampleObjs rfl).1,
        (load_replaces_mapping exampleRegistry emptyRegistry exampleFile
          exampleObjs rfl).2⟩

/-- C7: exporting a selection whose resulting channel subset is empty fails
with `EmptySelectionError` and neither creates nor modifies any file: the
file system is returned untouched. -/
theorem exportToFile_empty_selection (reg : ChannelRegistry) (path : String)
    (sel : Option (List String)) (fs : FileSys)
    (h : reg.selectChannels sel = []) :
    reg.exportToFile sel = .error .EmptySelectionError ∧
    reg.exportToFileFS path sel fs = (fs, .error .EmptySelectionError) := by
  have hexp : reg.exportToFile sel = .error .EmptySelectionError := by
    unfold ChannelRegistry.exportToFile
    rw [h]
    rfl
  refine ⟨hexp, ?_⟩
  unfold ChannelRegistry.exportToFileFS
  rw [hexp]

/-- Witness for C7: a non-empty registry with an empty key selection. -/
theorem exportToFile_empty_selection_witness :
    exampleRegistry.selectChannels (some []) = [] ∧
    exampleRegistry.exportToFile (some []) = .error .EmptySelectionError ∧
    exampleRegistry.exportToFileFS "out.h5" (some []) []
      = ([], .error .EmptySelectionError) :=
  ⟨rfl,
   (exportToFile_empty_selection exampleRegistry "out.h5" (some []) [] rfl).1,
   (exportToFile_empty_selection exampleRegistry "out.h5" (some []) [] rfl).2⟩

/-- C8: after a successful load, `items()` yields the `(key, Channel)` pairs
in insertion order, which is exactly the on-disk declaration order of the
classified source objects, and `keys()` is the corresponding key list; the
result depends only on the file, so reloading the same file reproduces the
same order. -/
theorem items_insertion_order (reg : ChannelRegistry) (f : ContainerFile)
    (objs : List TdmsObject) (hok : parseContainer f = .ok objs) :
    (reg.loadFromFile f).1.items = keyedChannels (readTdmsChannels objs) ∧
    (reg.loadFromFile f).1.keys = (readTdmsChannels objs).map Channel.key := by
  unfold ChannelRegistry.loadFromFile
  rw [hok]
  exact ⟨rfl, keyedChannels_keys _⟩

/-- Witness for C8 at the spec's example: loading `raw/x1` then `proc/y1`
gives `keys() = ["raw/x1", "proc/y1"]`. -/
theorem items_insertion_order_witness :
    parseContainer exampleFile = .ok exampleObjs ∧
    (emptyRegistry.loadFromFile exampleFile).1.keys
      = ["raw/x1", "proc/y1"] := by
  refine ⟨rfl, ?_⟩
  rw [(items_insertion_order emptyRegistry exampleFile exampleObjs rfl).2]
  decide

/-! ## Helper lemmas for the axis-label lookup -/

theorem foldl_inner_eq (cn lbl : String) (names : List String)
    (acc : Option String) :
    names.foldl (fun acc2 c => if cn = c then some lbl else acc2) acc
      = if cn ∈ names then some lbl else acc := by
  induction names generalizing acc with
  | nil => simp
  | cons c rest ih =>
    rw [List.foldl_cons, ih]
    by_cases h1 : cn = c <;> by_cases h2 : cn ∈ rest <;>
      simp [h1, h2, List.mem_cons]

theorem foldl_outer_eq (cn : String) (table : AxesLabels)
    (acc : Option String) :
    table.foldl (fun acc p => if cn ∈ p.2 then some p.1 else acc) acc
      = (findLastMatch cn table).or acc := by
  induction table generalizing acc with
  | nil => simp [findLastMatch]
  | cons p rest ih =>
    rw [List.foldl_cons, ih]
    cases hr : findLastMatch cn rest <;> by_cases hp : cn ∈ p.2 <;>
      simp [findLastMatch, hr, hp, Option.or]

theorem generateAxisLabel_eq_findLastMatch (table : AxesLabels)
    (chanName : String) :
    generateAxisLabel table chanName
      = findLastMatch (shortName chanName) table := by
  unfold generateAxisLabel
  simp only [foldl_inner_eq, foldl_outer_eq]
  cases findLastMatch (shortName chanName) table <;> rfl

theorem findLastMatch_eq_none_iff (cn : String) (l : AxesLabels) :
    findLastMatch cn l = none ↔ ∀ p ∈ l, cn ∉ p.2 := by
  induction l with
  | nil => simp [findLastMatch]
  | cons p rest ih =>
    rw [List.forall_mem_cons, ← ih]
    simp only [findLastMatch]
    cases hr : findLastMatch cn rest <;> by_cases hp : cn ∈ p.2 <;>
      simp [hr, hp]

theorem findLastMatch_append (cn : String) (l₁ l₂ : AxesLabels) :
    findLastMatch cn (l₁ ++ l₂)
      = (findLastMatch cn l₂).or (findLastMatch cn l₁) := by
  induction l₁ with
  | nil =>
    cases h2 : findLastMatch cn l₂ <;> simp [findLastMatch, h2, Option.or]
  | cons p rest ih =>
    rw [List.cons_append]
    cases h2 : findLastMatch cn l₂ <;> cases hr : findLastMatch cn rest <;>
      by_cases hp : cn ∈ p.2 <;>
      simp [findLastMatch, ih, h2, hr, hp, Option.or]

/-- C9: when the short name (last '/'-separated path segment) of the looked
up channel is listed under more than one axis label of the table, the
lookup returns the label of the entry matched last in table iteration order
(last-write-wins): splitting the table around the last entry listing the
short name, the result is that entry's label. -/
theorem generateAxisLabel_last_write_wins (table : AxesLabels)
    (chanName : String) (l₁ l₂ : AxesLabels) (e : String × List String)
    (hsplit : table = l₁ ++ e :: l₂)
    (he : shortName chanName ∈ e.2)
    (hlast : ∀ p ∈ l₂, shortName chanName ∉ p.2)
    (hmulti : ∃ p ∈ l₁, shortName chanName ∈ p.2) :
    generateAxisLabel table chanName = some e.1 := by
  subst hsplit
  rw [generateAxisLabel_eq_findLastMatch, findLastMatch_append]
  have h2 : findLastMatch (shortName chanName) l₂ = none :=
    (findLastMatch_eq_none_iff _ _).mpr hlast
  simp [findLastMatch, h2, he, Option.or]

/-- Witness for C9: "x" listed under both "A" and "B"; the lookup on
"raw/x" returns "B", the later entry. -/
theorem generateAxisLabel_last_write_wins_witness :
    ([("A", ["x"]), ("B", ["x"])] : AxesLabels)
      = [("A", ["x"])] ++ ("B", ["x"]) :: [] ∧
    shortName "raw/x" ∈ ["x"] ∧
    generateAxisLabel [("A", ["x"]), ("B", ["x"])] "raw/x" = some "B" :=
  ⟨rfl, by decide,
   generateAxisLabel_last_write_wins [("A", ["x"]), ("B", ["x"])] "raw/x"
     [("A", ["x"])] [] ("B", ["x"]) rfl (by decide) (by decide)
     ⟨("A", ["x"]), by decide⟩⟩

/-- C10: the lookup's result variable stays unassigned — modelled as `none`,
on which the final `return` raises — exactly when the channel's short name
appears under no axis label of the table; it returns normally (a `some`
label) only when at least one table entry lists the short name. -/
theorem generateAxisLabel_none_iff (table : AxesLabels) (chanName : String) :
    generateAxisLabel table chanName = none ↔
      ∀ p ∈ table, shortName chanName ∉ p.2 := by
  rw [generateAxisLabel_eq_findLastMatch]
  exact findLastMatch_eq_none_iff _ _

end TDMS2HDF5
